import Mathlib

/-!
Verification development for the PyKNyX KNX stack core.

Shallow embedding of the link data service (pknyx/stack/layer2/l_dataService.py),
the notifier (pyknyx/services/notifier.py) and the multicast sockets
(pknyx/stack/multicastSocket.py), with theorems checking the natural-language
specification against the code.
-/

namespace PyKNyX

/-! ## cEMI frames -/

/-- Modelled from the spec: cEMI message code for L_Data.req (0x11).
The CEMILData class itself is not part of the sources under verification. -/
def MC_LDATA_REQ : Nat := 0x11

/-- Modelled from the spec: cEMI message code for L_Data.con (0x2E). -/
def MC_LDATA_CON : Nat := 0x2E

/-- Modelled from the spec: cEMI message code for L_Data.ind (0x29). -/
def MC_LDATA_IND : Nat := 0x29

/-- Modelled from the spec: a cEMI L_Data frame with the fields the link layer
reads or writes: message code, source individual address (16 bit), destination
address, priority class, and the remaining octets collapsed into a payload. -/
structure CEMILData where
  messageCode : Nat
  sourceAddress : Nat
  destAddress : Nat
  priority : Nat
  payload : List Nat
  deriving DecidableEq, Repr

/-! ## Transmissions -/

/-- Result of an outbound transmission, as returned by dataReq. -/
inductive TxResult where
  | ok
  | timeout
  | waiting
  deriving DecidableEq, Repr

/-- Modelled from the spec: a Transmission is an outbound cEMI frame plus a
confirmation latch (waitConfirm) and a result slot; it lives until a confirm
matches it or a timeout fires. The Transmission class is not under src/. -/
structure Transmission where
  frame : CEMILData
  waitConfirm : Bool
  result : TxResult
  deriving DecidableEq, Repr

/-! ## Link data service (L_DataService, l_dataService.py) -/

/-- Behaviour of the upward (network-layer) listener: whether its dataInd
callback raises on a given frame.  Used to model the try/except wrapper of
the worker loop. -/
structure ListenerB where
  raisesOn : CEMILData → Bool

/-- A listener whose dataInd never raises; used to instantiate witnesses. -/
def quietListener : ListenerB := { raisesOn := fun _ => false }

/-- State of L_DataService read by the worker loop: the own individual
address, the optional upward listener (field _ldl) and the pending outbound
transmissions (the run loop never touches the latter). -/
structure L_DataServiceState where
  individualAddress : Nat
  ldl : Option ListenerB
  pendingTransmissions : List Transmission

/-- Observable events of the worker loop body. -/
inductive LinkEvent where
  | dataInd (cEMI : CEMILData)
  | warnNoListener
  | logException
  deriving DecidableEq, Repr

namespace L_DataService

/-- One iteration of L_DataService.run for a frame drained from the inbound
queue (l_dataService.py lines 183-195): drop the frame when its source equals
the own individual address (loop suppression); otherwise, when the message
code is MC_LDATA_IND, warn if no listener is set, else call the listener
dataInd.  The bare except around the body catches an exception raised by the
listener and logs it.  The loop body assigns no state, so the state is
returned unchanged. -/
def runStep (s : L_DataServiceState) (cEMI : CEMILData) :
    List LinkEvent × L_DataServiceState :=
  if cEMI.sourceAddress ≠ s.individualAddress then
    if cEMI.messageCode = MC_LDATA_IND then
      match s.ldl with
      | none => ([LinkEvent.warnNoListener], s)
      | some l =>
        if l.raisesOn cEMI then ([LinkEvent.dataInd cEMI, LinkEvent.logException], s)
        else ([LinkEvent.dataInd cEMI], s)
    else ([], s)
  else ([], s)

/-- The worker loop over the sequence of frames drained from the inbound
queue while the running flag is set. -/
def runLoop (s : L_DataServiceState) : List CEMILData → List LinkEvent × L_DataServiceState
  | [] => ([], s)
  | f :: rest =>
    ((runStep s f).1 ++ (runLoop (runStep s f).2 rest).1, (runLoop (runStep s f).2 rest).2)

/-- Waiting on the confirmation latch: the while loop of dataReq re-checks
waitConfirm after each wakeup; obs is the sequence of transmission states
observed at successive wakeups.  Returns the first observed state that no
longer awaits confirmation, or none when the latch never releases. -/
def awaitNotConfirm (t : Transmission) : List Transmission → Option Transmission
  | [] => if t.waitConfirm = false then some t else none
  | t' :: rest => if t.waitConfirm = false then some t else awaitNotConfirm t' rest

/-- Outcome of dataReq: the frame as sent (after the source-address
assignment), the transmission pushed onto the outbound queue, the priority
class it was pushed under, and the returned result (none when the wait never
ends). -/
structure DataReqOutcome where
  sent : CEMILData
  queuedTransmission : Transmission
  queuedPriority : Nat
  returned : Option TxResult
  deriving Repr

/-- L_DataService.dataReq (l_dataService.py lines 151-171): overwrite the
frame source address with the own individual address, read the priority,
wrap the frame in a Transmission pushed onto the outbound queue, wait while
the transmission awaits confirmation, and return the transmission result.
The initial latch state and the result slot are modelled from the spec
(the Transmission class is not under src/). -/
def dataReq (ia : Nat) (cEMI : CEMILData) (obs : List Transmission) : DataReqOutcome :=
  let sent : CEMILData := { cEMI with sourceAddress := ia }
  let priority := sent.priority
  let t0 : Transmission := { frame := sent, waitConfirm := true, result := TxResult.waiting }
  let final := awaitNotConfirm t0 obs
  { sent := sent
    queuedTransmission := t0
    queuedPriority := priority
    returned := final.map Transmission.result }

end L_DataService

/-! ## Notifier (pyknyx/services/notifier.py) -/

/-- A Python function or bound-method object.  The id field models the object
identity (what the `is` operator compares); raises tells whether calling it
raises an exception. -/
structure Method where
  id : Nat
  raises : Bool
  deriving DecidableEq, Repr

/-- An entry of the _datapointJobs table: the bound method with its watching
condition (the strings "change" or "always") and its thread flag. -/
structure JobEntry where
  method : Method
  condition : String
  thread : Bool
  deriving DecidableEq, Repr

/-- The event record built by datapointNotify and passed to a handler. -/
structure Event (V : Type) where
  name : String
  dp : String
  oldValue : V
  newValue : V
  condition : String
  thread : Bool
  deriving DecidableEq, Repr

/-- Observable effects of a notification: a handler call with its event
record, or a logged exception (logger.exception with the given context). -/
inductive NotifyEffect (V : Type) where
  | invoked (methodId : Nat) (event : Event V)
  | logError (ctx : String)
  deriving DecidableEq, Repr

/-- Association-list lookup, modelling Python dict indexing. -/
def aLookup {α β : Type} [DecidableEq α] (k : α) : List (α × β) → Option β
  | [] => none
  | (k', v) :: rest => if k' = k then some v else aLookup k rest

/-- The nested _datapointJobs dict: instance, then datapoint name, then the
list of registered (method, condition, thread) entries. -/
abbrev JobTable : Type := List (Nat × List (String × List JobEntry))

/-- Entries registered for an instance and a datapoint name, empty when either
key is absent (the `obj in keys` / `dp in keys` guards of datapointNotify). -/
def jobsFor (tbl : JobTable) (objId : Nat) (dp : String) : List JobEntry :=
  (Option.bind (aLookup objId tbl) (fun dpMap => aLookup dp dpMap)).getD []

namespace Notifier

/-- Notifier._execute (notifier.py lines 125-135): call the method with the
event; a raised exception is caught by the try/except and logged with context
Notifier._execute().  The invoked effect records that the call was made. -/
def executeMethod {V : Type} (m : Method) (event : Event V) : List (NotifyEffect V) :=
  if m.raises then
    [NotifyEffect.invoked m.id event, NotifyEffect.logError "Notifier._execute()"]
  else
    [NotifyEffect.invoked m.id event]

/-- The per-handler body of Notifier.datapointNotify (notifier.py lines
255-267).  The guard is the source expression
`oldValue != newValue and condition == "change" or condition == "always"`.
In the thread branch the source evaluates `thread.start_new_thread`, but the
name `thread` is bound nowhere in the module (no import of the thread or
_thread module exists), so the attribute access raises NameError before any
call is started; the surrounding try/except catches it and logs it with
context Notifier.datapointNotify().  In the inline branch Notifier._execute
runs the handler. -/
def notifyOne {V : Type} [DecidableEq V] (dp : String) (oldValue newValue : V)
    (j : JobEntry) : List (NotifyEffect V) :=
  if (oldValue ≠ newValue ∧ j.condition = "change") ∨ j.condition = "always" then
    let event : Event V :=
      { name := "datapoint", dp := dp, oldValue := oldValue, newValue := newValue
        condition := j.condition, thread := j.thread }
    if j.thread then
      [NotifyEffect.logError "Notifier.datapointNotify()"]
    else
      executeMethod j.method event
  else []

/-- The for loop of datapointNotify over the entries registered for the
matching (instance, datapoint) key. -/
def notifyAll {V : Type} [DecidableEq V] (dp : String) (oldValue newValue : V) :
    List JobEntry → List (NotifyEffect V)
  | [] => []
  | j :: rest => notifyOne dp oldValue newValue j ++ notifyAll dp oldValue newValue rest

/-- Notifier.datapointNotify (notifier.py lines 234-267): look the instance
and the datapoint name up in _datapointJobs and run the registered entries in
order.  The function is total: no handler exception escapes it. -/
def datapointNotify {V : Type} [DecidableEq V] (tbl : JobTable) (objId : Nat)
    (dp : String) (oldValue newValue : V) : List (NotifyEffect V) :=
  notifyAll dp oldValue newValue (jobsFor tbl objId dp)

/-- The handler calls among a list of notification effects, with their event
records, in order. -/
def invokedOf {V : Type} : List (NotifyEffect V) → List (Nat × Event V)
  | [] => []
  | NotifyEffect.invoked m e :: rest => (m, e) :: invokedOf rest
  | NotifyEffect.logError _ :: rest => invokedOf rest

end Notifier

/-! ## Notifier registration (doRegisterJobs) -/

/-- A pending registration produced by the datapoint decorator
(Notifier.addDatapointJob): the kind tag, the name of the decorated function
(func_name), the function object itself, and the decorator arguments. -/
structure PendingFunc where
  type_ : String
  funcName : String
  func : Method
  dp : String
  condition : String
  thread : Bool
  deriving DecidableEq, Repr

/-- A functional-block instance as doRegisterJobs sees it: an identity and
its attribute dictionary mapping attribute names to the underlying function
object of the bound method found there (what meth_func returns).  getattr
with default None is lookup in this list. -/
structure Obj where
  id : Nat
  attrs : List (String × Method)
  deriving DecidableEq, Repr

namespace Notifier

/-- Append an entry under (objId, dp), creating the inner or outer dict entry
when absent: the try/except KeyError chain of doRegisterJobs lines 219-225. -/
def updateDp (dp : String) (e : JobEntry) :
    List (String × List JobEntry) → List (String × List JobEntry)
  | [] => [(dp, [e])]
  | (d, es) :: rest =>
    if d = dp then (d, es ++ [e]) :: rest else (d, es) :: updateDp dp e rest

/-- Insertion into the nested _datapointJobs dict. -/
def addJob (tbl : JobTable) (objId : Nat) (dp : String) (e : JobEntry) : JobTable :=
  match tbl with
  | [] => [(objId, [(dp, [e])])]
  | (o, m) :: rest =>
    if o = objId then (o, updateDp dp e m) :: rest
    else (o, m) :: addJob rest objId dp e

/-- Notifier.doRegisterJobs (notifier.py lines 200-225): for each pending
registration, fetch the attribute of obj named after the decorated function
(getattr with default None); when it exists and its underlying function is
the very function object that was decorated (`meth_func(method) is func`),
and the kind tag is "datapoint", append the bound method with its condition
and thread flag under (obj, dp). -/
def doRegisterJobs (obj : Obj) : List PendingFunc → JobTable → JobTable
  | [], tbl => tbl
  | p :: rest, tbl =>
    let tbl' :=
      match aLookup p.funcName obj.attrs with
      | none => tbl
      | some m =>
        if m = p.func then
          if p.type_ = "datapoint" then
            addJob tbl obj.id p.dp { method := m, condition := p.condition, thread := p.thread }
          else tbl
        else tbl
    doRegisterJobs obj rest tbl'

end Notifier

/-! ## Multicast sockets (multicastSocket.py) -/

/-- Socket options set by the constructors. -/
inductive SockOpt where
  | SO_REUSEADDR
  | SO_REUSEPORT
  | IP_MULTICAST_TTL
  | IP_MULTICAST_LOOP
  deriving DecidableEq, Repr

/-- Errors a socket operation can raise.  IOError is what the source raises;
TransceiverError is the illustrative error kind named by the spec. -/
inductive PyError where
  | IOError (msg : String)
  | TransceiverError (msg : String)
  deriving DecidableEq, Repr

namespace MulticastSocketBase

/-- The socket options set by MulticastSocketBase.__init__ (multicastSocket.py
lines 100-106), in call order: SO_REUSEADDR to 1, SO_REUSEPORT to 1 when the
system supports it (the try/except), IP_MULTICAST_TTL to the ttl argument and
IP_MULTICAST_LOOP to the loop argument. -/
def initOpts (ttl loop_ : Nat) (reuseportOk : Bool) : List (SockOpt × Nat) :=
  [(SockOpt.SO_REUSEADDR, 1)]
    ++ (if reuseportOk then [(SockOpt.SO_REUSEPORT, 1)] else [])
    ++ [(SockOpt.IP_MULTICAST_TTL, ttl), (SockOpt.IP_MULTICAST_LOOP, loop_)]

end MulticastSocketBase

namespace MulticastSocketTransmit

/-- Default value of the ttl parameter of MulticastSocketTransmit.__init__. -/
def defaultTtl : Nat := 32

/-- Default value of the loop parameter of MulticastSocketTransmit.__init__
(multicastSocket.py line 160: `ttl=32, loop=1`). -/
def defaultLoop : Nat := 1

/-- The socket options set when MulticastSocketTransmit is constructed with
the default ttl and loop parameters: the subclass passes them through to
MulticastSocketBase.__init__ unchanged. -/
def initOptsDefault (reuseportOk : Bool) : List (SockOpt × Nat) :=
  MulticastSocketBase.initOpts defaultTtl defaultLoop reuseportOk

/-- MulticastSocketTransmit.transmit (multicastSocket.py lines 173-178):
sendto returns the number of bytes delivered (sentLen, for a datagram of
dataLen bytes); an IOError is raised exactly when that number is positive
and smaller than the datagram length. -/
def transmit (dataLen sentLen : Nat) : Except PyError Unit :=
  if 0 < sentLen ∧ sentLen < dataLen then
    Except.error (PyError.IOError "partial transmit")
  else Except.ok ()

end MulticastSocketTransmit

/-! ## Lemmas about the link worker loop -/

/-- The worker loop body assigns no state. -/
theorem runStep_state (s : L_DataServiceState) (c : CEMILData) :
    (L_DataService.runStep s c).2 = s := by
  unfold L_DataService.runStep
  split
  · split
    · split
      · rfl
      · split <;> rfl
    · rfl
  · rfl

/-- The worker loop as a whole assigns no state. -/
theorem runLoop_state (s : L_DataServiceState) (frames : List CEMILData) :
    (L_DataService.runLoop s frames).2 = s := by
  induction frames with
  | nil => rfl
  | cons f rest ih =>
    show (L_DataService.runLoop (L_DataService.runStep s f).2 rest).2 = s
    rw [runStep_state, ih]

/-- A dataInd event of the loop body carries the drained frame itself, and
only a frame whose source differs from the own address produces one. -/
theorem dataInd_mem_runStep {s : L_DataServiceState} {c f : CEMILData}
    (h : LinkEvent.dataInd f ∈ (L_DataService.runStep s c).1) :
    f = c ∧ c.sourceAddress ≠ s.individualAddress := by
  unfold L_DataService.runStep at h
  split at h
  · next hsrc =>
    split at h
    · split at h
      · simp at h
      · split at h <;> simp_all
    · simp at h
  · simp at h

/-- A dataInd event anywhere in the worker loop comes from a frame whose
source differs from the own individual address. -/
theorem dataInd_mem_runLoop {s : L_DataServiceState} {frames : List CEMILData}
    {f : CEMILData} (h : LinkEvent.dataInd f ∈ (L_DataService.runLoop s frames).1) :
    f.sourceAddress ≠ s.individualAddress := by
  induction frames with
  | nil => simp [L_DataService.runLoop] at h
  | cons c rest ih =>
    rw [L_DataService.runLoop] at h
    rw [runStep_state] at h
    rcases List.mem_append.1 h with h' | h'
    · rcases dataInd_mem_runStep h' with ⟨rfl, hne⟩
      exact hne
    · exact ih h'

/-- C1: a cEMI frame drained from the inbound queue whose source address
equals the own individual address is dropped, whatever its message code: the
loop body produces no event for it, and no dataInd for such a frame ever
appears among the events of the worker loop. -/
theorem c1_loop_suppression_drops_own_source (s : L_DataServiceState)
    (cEMI : CEMILData) (frames : List CEMILData)
    (h : cEMI.sourceAddress = s.individualAddress) :
    (L_DataService.runStep s cEMI).1 = [] ∧
      LinkEvent.dataInd cEMI ∉ (L_DataService.runLoop s frames).1 := by
  refine ⟨?_, fun hmem => dataInd_mem_runLoop hmem h⟩
  unfold L_DataService.runStep
  rw [if_neg]
  intro hne
  exact hne h

/-- C1 witness: a concrete L_Data.req frame from the own address 0x1101 is
dropped by the loop body and produces no dataInd over a whole drain. -/
theorem c1_loop_suppression_drops_own_source_witness :
    (L_DataService.runStep
        { individualAddress := 0x1101, ldl := some quietListener,
          pendingTransmissions := [] }
        { messageCode := MC_LDATA_IND, sourceAddress := 0x1101, destAddress := 5,
          priority := 3, payload := [1, 2] }).1 = [] ∧
      LinkEvent.dataInd
          { messageCode := MC_LDATA_IND, sourceAddress := 0x1101, destAddress := 5,
            priority := 3, payload := [1, 2] } ∉
        (L_DataService.runLoop
          { individualAddress := 0x1101, ldl := some quietListener,
            pendingTransmissions := [] }
          [{ messageCode := MC_LDATA_IND, sourceAddress := 0x1101, destAddress := 5,
             priority := 3, payload := [1, 2] }]).1 :=
  c1_loop_suppression_drops_own_source _ _ _ rfl

/-- C2: a frame drained with a foreign source address is delivered to the
listener dataInd exactly when its message code is L_Data.ind; an L_Data.con
frame produces no event at all, and the loop body leaves the pending
transmissions untouched (no confirm matching happens). -/
theorem c2_foreign_dataInd_iff_ind (s : L_DataServiceState) (l : ListenerB)
    (cEMI : CEMILData) (hl : s.ldl = some l)
    (h : cEMI.sourceAddress ≠ s.individualAddress) :
    (LinkEvent.dataInd cEMI ∈ (L_DataService.runStep s cEMI).1 ↔
        cEMI.messageCode = MC_LDATA_IND) ∧
      (cEMI.messageCode = MC_LDATA_CON → (L_DataService.runStep s cEMI).1 = []) ∧
      (L_DataService.runStep s cEMI).2.pendingTransmissions = s.pendingTransmissions := by
  refine ⟨?_, ?_, by rw [runStep_state]⟩
  · constructor
    · intro hmem
      unfold L_DataService.runStep at hmem
      rw [if_pos h] at hmem
      split at hmem
      · next hm => exact hm
      · simp at hmem
    · intro hm
      unfold L_DataService.runStep
      rw [if_pos h, if_pos hm, hl]
      by_cases hr : l.raisesOn cEMI = true <;> simp [hr]
  · intro hcon
    unfold L_DataService.runStep
    rw [if_pos h, if_neg]
    rw [hcon]
    unfold MC_LDATA_CON MC_LDATA_IND
    decide

/-- C2 witness: with a listener set, a foreign L_Data.ind frame is delivered,
a foreign L_Data.con frame produces nothing, and pending transmissions are
untouched. -/
theorem c2_foreign_dataInd_iff_ind_witness :
    (LinkEvent.dataInd
          { messageCode := MC_LDATA_CON, sourceAddress := 0x2203, destAddress := 7,
            priority := 0, payload := [4] } ∈
        (L_DataService.runStep
          { individualAddress := 0x1101, ldl := some quietListener,
            pendingTransmissions :=
              [{ frame := { messageCode := MC_LDATA_REQ, sourceAddress := 0x1101,
                            destAddress := 7, priority := 0, payload := [4] },
                 waitConfirm := true, result := TxResult.waiting }] }
          { messageCode := MC_LDATA_CON, sourceAddress := 0x2203, destAddress := 7,
            priority := 0, payload := [4] }).1 ↔
        ({ messageCode := MC_LDATA_CON, sourceAddress := 0x2203, destAddress := 7,
           priority := 0, payload := [4] } : CEMILData).messageCode = MC_LDATA_IND) ∧
      (({ messageCode := MC_LDATA_CON, sourceAddress := 0x2203, destAddress := 7,
          priority := 0, payload := [4] } : CEMILData).messageCode = MC_LDATA_CON →
        (L_DataService.runStep
          { individualAddress := 0x1101, ldl := some quietListener,
            pendingTransmissions :=
              [{ frame := { messageCode := MC_LDATA_REQ, sourceAddress := 0x1101,
                            destAddress := 7, priority := 0, payload := [4] },
                 waitConfirm := true, result := TxResult.waiting }] }
          { messageCode := MC_LDATA_CON, sourceAddress := 0x2203, destAddress := 7,
            priority := 0, payload := [4] }).1 = []) ∧
      (L_DataService.runStep
          { individualAddress := 0x1101, ldl := some quietListener,
            pendingTransmissions :=
              [{ frame := { messageCode := MC_LDATA_REQ, sourceAddress := 0x1101,
                            destAddress := 7, priority := 0, payload := [4] },
                 waitConfirm := true, result := TxResult.waiting }] }
          { messageCode := MC_LDATA_CON, sourceAddress := 0x2203, destAddress := 7,
            priority := 0, payload := [4] }).2.pendingTransmissions =
        [{ frame := { messageCode := MC_LDATA_REQ, sourceAddress := 0x1101,
                      destAddress := 7, priority := 0, payload := [4] },
           waitConfirm := true, result := TxResult.waiting }] :=
  c2_foreign_dataInd_iff_ind _ _ _ rfl (by decide)

/-- C9: with no upward listener set, every drained L_Data.ind frame with a
foreign source yields exactly one warning event and no dataInd and no logged
exception; the loop processes every frame of the drain and leaves the state
unchanged, so no exception ends the loop. -/
theorem c9_no_listener_warns_never_raises (s : L_DataServiceState)
    (frames : List CEMILData) (hl : s.ldl = none)
    (hf : ∀ f ∈ frames, f.sourceAddress ≠ s.individualAddress ∧
        f.messageCode = MC_LDATA_IND) :
    (L_DataService.runLoop s frames).1 =
        List.replicate frames.length LinkEvent.warnNoListener ∧
      (L_DataService.runLoop s frames).2 = s := by
  refine ⟨?_, runLoop_state s frames⟩
  induction frames with
  | nil => rfl
  | cons c rest ih =>
    have hc := hf c (List.mem_cons_self c rest)
    have hstep : (L_DataService.runStep s c).1 = [LinkEvent.warnNoListener] := by
      unfold L_DataService.runStep
      rw [if_pos hc.1, if_pos hc.2, hl]
    show (L_DataService.runStep s c).1 ++
        (L_DataService.runLoop (L_DataService.runStep s c).2 rest).1 = _
    rw [runStep_state, hstep, ih (fun f hfm => hf f (List.mem_cons_of_mem c hfm))]
    rfl

/-- C9 witness: two foreign L_Data.ind frames drained with no listener set
produce exactly two warnings and leave the state unchanged. -/
theorem c9_no_listener_warns_never_raises_witness :
    (L_DataService.runLoop
        { individualAddress := 0x1101, ldl := none, pendingTransmissions := [] }
        [{ messageCode := MC_LDATA_IND, sourceAddress := 0x2203, destAddress := 9,
           priority := 1, payload := [] },
         { messageCode := MC_LDATA_IND, sourceAddress := 0x2204, destAddress := 9,
           priority := 1, payload := [8] }]).1 =
      List.replicate 2 LinkEvent.warnNoListener ∧
    (L_DataService.runLoop
        { individualAddress := 0x1101, ldl := none, pendingTransmissions := [] }
        [{ messageCode := MC_LDATA_IND, sourceAddress := 0x2203, destAddress := 9,
           priority := 1, payload := [] },
         { messageCode := MC_LDATA_IND, sourceAddress := 0x2204, destAddress := 9,
           priority := 1, payload := [8] }]).2 =
      { individualAddress := 0x1101, ldl := none, pendingTransmissions := [] } :=
  c9_no_listener_warns_never_raises _ _ rfl (by
    intro f hfm
    simp only [List.mem_cons, List.not_mem_nil, or_false] at hfm
    rcases hfm with rfl | rfl <;> exact ⟨by decide, rfl⟩)

/-! ## Lemmas about the notifier -/

/-- invokedOf distributes over concatenation of effect lists. -/
theorem invokedOf_append {V : Type} (a b : List (NotifyEffect V)) :
    Notifier.invokedOf (a ++ b) = Notifier.invokedOf a ++ Notifier.invokedOf b := by
  induction a with
  | nil => rfl
  | cons x rest ih => cases x <;> simp [Notifier.invokedOf, ih]

/-- The notification loop distributes over concatenation of job lists. -/
theorem notifyAll_append {V : Type} [DecidableEq V] (dp : String) (o n : V)
    (xs ys : List JobEntry) :
    Notifier.notifyAll dp o n (xs ++ ys) =
      Notifier.notifyAll dp o n xs ++ Notifier.notifyAll dp o n ys := by
  induction xs with
  | nil => rfl
  | cons j rest ih => simp [Notifier.notifyAll, ih]

/-- Notifier._execute always calls the method, whether or not it raises. -/
theorem invokedOf_executeMethod {V : Type} (m : Method) (e : Event V) :
    Notifier.invokedOf (Notifier.executeMethod m e) = [(m.id, e)] := by
  unfold Notifier.executeMethod
  by_cases hr : m.raises = true <;> simp [hr, Notifier.invokedOf]

/-- For an inline (thread=false) entry, the handler call made by the
per-entry body of datapointNotify is exactly one call with the event record
when the watching condition holds, and no call otherwise. -/
theorem notifyOne_invokedOf {V : Type} [DecidableEq V] (dp : String) (o n : V)
    (j : JobEntry) (ht : j.thread = false) :
    Notifier.invokedOf (Notifier.notifyOne dp o n j) =
      if (o ≠ n ∧ j.condition = "change") ∨ j.condition = "always" then
        [(j.method.id,
          { name := "datapoint", dp := dp, oldValue := o, newValue := n,
            condition := j.condition, thread := j.thread })]
      else [] := by
  unfold Notifier.notifyOne
  by_cases hc : (o ≠ n ∧ j.condition = "change") ∨ j.condition = "always"
  · rw [if_pos hc, if_pos hc, ht]
    simp only [Bool.false_eq_true, if_false]
    exact invokedOf_executeMethod j.method _
  · rw [if_neg hc, if_neg hc]
    rfl

/-- The wait loop of dataReq only ever returns a transmission state that no
longer awaits confirmation. -/
theorem awaitNotConfirm_some {t u : Transmission} {obs : List Transmission}
    (h : L_DataService.awaitNotConfirm t obs = some u) : u.waitConfirm = false := by
  induction obs generalizing t with
  | nil =>
    unfold L_DataService.awaitNotConfirm at h
    split at h
    · next hw => cases h; assumption
    · cases h
  | cons t' rest ih =>
    unfold L_DataService.awaitNotConfirm at h
    split at h
    · next hw => cases h; assumption
    · exact ih h

/-- C5: dataReq overwrites the frame source address with the own individual
address and changes no other field; it wraps the frame in a transmission
awaiting confirmation, pushed under the frame priority class; and when the
wait loop observes a state that no longer awaits confirmation it returns
that state's result. -/
theorem c5_dataReq_contract (ia : Nat) (cEMI : CEMILData) (obs : List Transmission)
    (u : Transmission)
    (h : L_DataService.awaitNotConfirm
        { frame := { cEMI with sourceAddress := ia }, waitConfirm := true,
          result := TxResult.waiting } obs = some u) :
    (L_DataService.dataReq ia cEMI obs).sent.sourceAddress = ia ∧
      (L_DataService.dataReq ia cEMI obs).sent.messageCode = cEMI.messageCode ∧
      (L_DataService.dataReq ia cEMI obs).sent.destAddress = cEMI.destAddress ∧
      (L_DataService.dataReq ia cEMI obs).sent.priority = cEMI.priority ∧
      (L_DataService.dataReq ia cEMI obs).sent.payload = cEMI.payload ∧
      (L_DataService.dataReq ia cEMI obs).queuedTransmission =
        { frame := (L_DataService.dataReq ia cEMI obs).sent, waitConfirm := true,
          result := TxResult.waiting } ∧
      (L_DataService.dataReq ia cEMI obs).queuedPriority = cEMI.priority ∧
      u.waitConfirm = false ∧
      (L_DataService.dataReq ia cEMI obs).returned = some u.result := by
  refine ⟨rfl, rfl, rfl, rfl, rfl, rfl, rfl, awaitNotConfirm_some h, ?_⟩
  show (L_DataService.awaitNotConfirm _ obs).map Transmission.result = some u.result
  rw [h]
  rfl

/-- C5 witness: a concrete dataReq whose latch releases at the first wakeup
with result ok. -/
theorem c5_dataReq_contract_witness :
    (L_DataService.dataReq 0x1102
          { messageCode := MC_LDATA_REQ, sourceAddress := 0, destAddress := 0x0A0B,
            priority := 3, payload := [0, 0x80] }
          [{ frame := { messageCode := MC_LDATA_REQ, sourceAddress := 0x1102,
                        destAddress := 0x0A0B, priority := 3, payload := [0, 0x80] },
             waitConfirm := false, result := TxResult.ok }]).sent.sourceAddress = 0x1102 ∧
      (L_DataService.dataReq 0x1102
          { messageCode := MC_LDATA_REQ, sourceAddress := 0, destAddress := 0x0A0B,
            priority := 3, payload := [0, 0x80] }
          [{ frame := { messageCode := MC_LDATA_REQ, sourceAddress := 0x1102,
                        destAddress := 0x0A0B, priority := 3, payload := [0, 0x80] },
             waitConfirm := false, result := TxResult.ok }]).sent.messageCode =
        ({ messageCode := MC_LDATA_REQ, sourceAddress := 0, destAddress := 0x0A0B,
           priority := 3, payload := [0, 0x80] } : CEMILData).messageCode ∧
      (L_DataService.dataReq 0x1102
          { messageCode := MC_LDATA_REQ, sourceAddress := 0, destAddress := 0x0A0B,
            priority := 3, payload := [0, 0x80] }
          [{ frame := { messageCode := MC_LDATA_REQ, sourceAddress := 0x1102,
                        destAddress := 0x0A0B, priority := 3, payload := [0, 0x80] },
             waitConfirm := false, result := TxResult.ok }]).sent.destAddress =
        ({ messageCode := MC_LDATA_REQ, sourceAddress := 0, destAddress := 0x0A0B,
           priority := 3, payload := [0, 0x80] } : CEMILData).destAddress ∧
      (L_DataService.dataReq 0x1102
          { messageCode := MC_LDATA_REQ, sourceAddress := 0, destAddress := 0x0A0B,
            priority := 3, payload := [0, 0x80] }
          [{ frame := { messageCode := MC_LDATA_REQ, sourceAddress := 0x1102,
                        destAddress := 0x0A0B, priority := 3, payload := [0, 0x80] },
             waitConfirm := false, result := TxResult.ok }]).sent.priority =
        ({ messageCode := MC_LDATA_REQ, sourceAddress := 0, destAddress := 0x0A0B,
           priority := 3, payload := [0, 0x80] } : CEMILData).priority ∧
      (L_DataService.dataReq 0x1102
          { messageCode := MC_LDATA_REQ, sourceAddress := 0, destAddress := 0x0A0B,
            priority := 3, payload := [0, 0x80] }
          [{ frame := { messageCode := MC_LDATA_REQ, sourceAddress := 0x1102,
                        destAddress := 0x0A0B, priority := 3, payload := [0, 0x80] },
             waitConfirm := false, result := TxResult.ok }]).sent.payload =
        ({ messageCode := MC_LDATA_REQ, sourceAddress := 0, destAddress := 0x0A0B,
           priority := 3, payload := [0, 0x80] } : CEMILData).payload ∧
      (L_DataService.dataReq 0x1102
          { messageCode := MC_LDATA_REQ, sourceAddress := 0, destAddress := 0x0A0B,
            priority := 3, payload := [0, 0x80] }
          [{ frame := { messageCode := MC_LDATA_REQ, sourceAddress := 0x1102,
                        destAddress := 0x0A0B, priority := 3, payload := [0, 0x80] },
             waitConfirm := false, result := TxResult.ok }]).queuedTransmission =
        { frame := (L_DataService.dataReq 0x1102
            { messageCode := MC_LDATA_REQ, sourceAddress := 0, destAddress := 0x0A0B,
              priority := 3, payload := [0, 0x80] }
            [{ frame := { messageCode := MC_LDATA_REQ, sourceAddress := 0x1102,
                          destAddress := 0x0A0B, priority := 3, payload := [0, 0x80] },
               waitConfirm := false, result := TxResult.ok }]).sent,
          waitConfirm := true, result := TxResult.waiting } ∧
      (L_DataService.dataReq 0x1102
          { messageCode := MC_LDATA_REQ, sourceAddress := 0, destAddress := 0x0A0B,
            priority := 3, payload := [0, 0x80] }
          [{ frame := { messageCode := MC_LDATA_REQ, sourceAddress := 0x1102,
                        destAddress := 0x0A0B, priority := 3, payload := [0, 0x80] },
             waitConfirm := false, result := TxResult.ok }]).queuedPriority =
        ({ messageCode := MC_LDATA_REQ, sourceAddress := 0, destAddress := 0x0A0B,
           priority := 3, payload := [0, 0x80] } : CEMILData).priority ∧
      ({ frame := { messageCode := MC_LDATA_REQ, sourceAddress := 0x1102,
                    destAddress := 0x0A0B, priority := 3, payload := [0, 0x80] },
         waitConfirm := false, result := TxResult.ok } : Transmission).waitConfirm = false ∧
      (L_DataService.dataReq 0x1102
          { messageCode := MC_LDATA_REQ, sourceAddress := 0, destAddress := 0x0A0B,
            priority := 3, payload := [0, 0x80] }
          [{ frame := { messageCode := MC_LDATA_REQ, sourceAddress := 0x1102,
                        destAddress := 0x0A0B, priority := 3, payload := [0, 0x80] },
             waitConfirm := false, result := TxResult.ok }]).returned =
        some ({ frame := { messageCode := MC_LDATA_REQ, sourceAddress := 0x1102,
                           destAddress := 0x0A0B, priority := 3, payload := [0, 0x80] },
                waitConfirm := false, result := TxResult.ok } : Transmission).result :=
  c5_dataReq_contract 0x1102 _ _ _ (by decide)

/-! ## Notifier claim theorems -/

/-- C3 counterexample: a registered handler with condition always but marked
thread=true is never invoked by datapointNotify, because the source evaluates
the unbound module name thread and the NameError is swallowed; the claim as
stated (every matching always-handler is invoked) is therefore false. -/
theorem c3_thread_true_handler_skipped :
    Notifier.datapointNotify
        [(1, [("temp",
          [{ method := { id := 7, raises := false }, condition := "always",
             thread := true }])])]
        1 "temp" (0 : Nat) 0 =
      [NotifyEffect.logError "Notifier.datapointNotify()"] ∧
    Notifier.invokedOf
        (Notifier.datapointNotify
          [(1, [("temp",
            [{ method := { id := 7, raises := false }, condition := "always",
               thread := true }])])]
          1 "temp" (0 : Nat) 0) = [] := by
  decide

/-- C3 (amended to handlers marked thread=false): datapointNotify runs the
matching entries in order, and an inline handler is invoked exactly when
(old differs from new and the condition is change) or the condition is
always, with the event record carrying name datapoint, the datapoint name,
the old and new values and the condition; with equal values a
change-conditioned handler is invoked zero times and an always-conditioned
handler twice over two notifications. -/
theorem c3_condition_gating {V : Type} [DecidableEq V] (tbl : JobTable)
    (objId : Nat) (dp : String) (oldValue newValue : V)
    (pre post : List JobEntry) (j : JobEntry)
    (hj : jobsFor tbl objId dp = pre ++ j :: post) (ht : j.thread = false) :
    Notifier.datapointNotify tbl objId dp oldValue newValue =
        Notifier.notifyAll dp oldValue newValue pre ++
          (Notifier.notifyOne dp oldValue newValue j ++
            Notifier.notifyAll dp oldValue newValue post) ∧
      Notifier.invokedOf (Notifier.notifyOne dp oldValue newValue j) =
        (if (oldValue ≠ newValue ∧ j.condition = "change") ∨ j.condition = "always" then
          [(j.method.id,
            { name := "datapoint", dp := dp, oldValue := oldValue,
              newValue := newValue, condition := j.condition, thread := j.thread })]
        else []) ∧
      (oldValue = newValue → j.condition = "change" →
        Notifier.invokedOf (Notifier.notifyOne dp oldValue newValue j) = []) ∧
      (oldValue = newValue → j.condition = "always" →
        (Notifier.invokedOf (Notifier.notifyOne dp oldValue newValue j ++
          Notifier.notifyOne dp oldValue newValue j)).length = 2) := by
  refine ⟨?_, notifyOne_invokedOf dp oldValue newValue j ht, ?_, ?_⟩
  · rw [Notifier.datapointNotify, hj, notifyAll_append, Notifier.notifyAll]
  · intro he hc
    rw [notifyOne_invokedOf dp oldValue newValue j ht, if_neg]
    rintro (⟨hne, _⟩ | hal)
    · exact hne he
    · rw [hc] at hal
      exact absurd hal (by decide)
  · intro he hc
    rw [invokedOf_append, notifyOne_invokedOf dp oldValue newValue j ht,
      if_pos (Or.inr hc)]
    rfl

/-- C3 witness: a single inline change-conditioned handler, notified with
distinct values. -/
theorem c3_condition_gating_witness :
    jobsFor
        [(3, [("temp",
          [{ method := { id := 9, raises := false }, condition := "change",
             thread := false }])])]
        3 "temp" =
      [] ++ { method := { id := 9, raises := false }, condition := "change",
              thread := false } :: [] ∧
    ({ method := { id := 9, raises := false }, condition := "change",
       thread := false } : JobEntry).thread = false ∧
    (Notifier.datapointNotify
        [(3, [("temp",
          [{ method := { id := 9, raises := false }, condition := "change",
             thread := false }])])]
        3 "temp" (0 : Nat) 1 =
        Notifier.notifyAll "temp" (0 : Nat) 1 [] ++
          (Notifier.notifyOne "temp" (0 : Nat) 1
              { method := { id := 9, raises := false }, condition := "change",
                thread := false } ++
            Notifier.notifyAll "temp" (0 : Nat) 1 []) ∧
      Notifier.invokedOf
          (Notifier.notifyOne "temp" (0 : Nat) 1
            { method := { id := 9, raises := false }, condition := "change",
              thread := false }) =
        (if ((0 : Nat) ≠ 1 ∧
              ({ method := { id := 9, raises := false }, condition := "change",
                 thread := false } : JobEntry).condition = "change") ∨
            ({ method := { id := 9, raises := false }, condition := "change",
               thread := false } : JobEntry).condition = "always" then
          [(({ method := { id := 9, raises := false }, condition := "change",
               thread := false } : JobEntry).method.id,
            { name := "datapoint", dp := "temp", oldValue := (0 : Nat),
              newValue := 1,
              condition :=
                ({ method := { id := 9, raises := false }, condition := "change",
                   thread := false } : JobEntry).condition,
              thread :=
                ({ method := { id := 9, raises := false }, condition := "change",
                   thread := false } : JobEntry).thread })]
        else []) ∧
      ((0 : Nat) = 1 →
        ({ method := { id := 9, raises := false }, condition := "change",
           thread := false } : JobEntry).condition = "change" →
        Notifier.invokedOf
            (Notifier.notifyOne "temp" (0 : Nat) 1
              { method := { id := 9, raises := false }, condition := "change",
                thread := false }) = []) ∧
      ((0 : Nat) = 1 →
        ({ method := { id := 9, raises := false }, condition := "change",
           thread := false } : JobEntry).condition = "always" →
        (Notifier.invokedOf
            (Notifier.notifyOne "temp" (0 : Nat) 1
                { method := { id := 9, raises := false }, condition := "change",
                  thread := false } ++
              Notifier.notifyOne "temp" (0 : Nat) 1
                { method := { id := 9, raises := false }, condition := "change",
                  thread := false })).length = 2)) :=
  ⟨by decide, rfl,
    c3_condition_gating
      [(3, [("temp",
        [{ method := { id := 9, raises := false }, condition := "change",
           thread := false }])])]
      3 "temp" (0 : Nat) 1 [] []
      { method := { id := 9, raises := false }, condition := "change",
        thread := false }
      (by decide) rfl⟩

/-- C4: an inline handler that raises is still called, the exception is
caught and logged with context Notifier._execute() inside datapointNotify
(which returns normally with the full effect list), and the entries
registered after it still run unchanged. -/
theorem c4_handler_exception_isolated {V : Type} [DecidableEq V] (tbl : JobTable)
    (objId : Nat) (dp : String) (oldValue newValue : V)
    (pre post : List JobEntry) (j : JobEntry)
    (hj : jobsFor tbl objId dp = pre ++ j :: post)
    (ht : j.thread = false) (hr : j.method.raises = true)
    (hc : (oldValue ≠ newValue ∧ j.condition = "change") ∨ j.condition = "always") :
    Notifier.datapointNotify tbl objId dp oldValue newValue =
      Notifier.notifyAll dp oldValue newValue pre ++
        ([NotifyEffect.invoked j.method.id
            { name := "datapoint", dp := dp, oldValue := oldValue,
              newValue := newValue, condition := j.condition, thread := j.thread },
          NotifyEffect.logError "Notifier._execute()"] ++
          Notifier.notifyAll dp oldValue newValue post) := by
  rw [Notifier.datapointNotify, hj, notifyAll_append, Notifier.notifyAll]
  have hone : Notifier.notifyOne dp oldValue newValue j =
      [NotifyEffect.invoked j.method.id
        { name := "datapoint", dp := dp, oldValue := oldValue,
          newValue := newValue, condition := j.condition, thread := j.thread },
        NotifyEffect.logError "Notifier._execute()"] := by
    unfold Notifier.notifyOne
    rw [if_pos hc, ht]
    simp only [Bool.false_eq_true, if_false]
    unfold Notifier.executeMethod
    rw [if_pos hr]
  rw [hone]

/-- C4 witness: a raising handler followed by a second handler on the same
datapoint; the second one still runs. -/
theorem c4_handler_exception_isolated_witness :
    jobsFor
        [(4, [("door",
          [{ method := { id := 11, raises := true }, condition := "always",
             thread := false },
           { method := { id := 12, raises := false }, condition := "always",
             thread := false }])])]
        4 "door" =
      [] ++ { method := { id := 11, raises := true }, condition := "always",
              thread := false } ::
        [{ method := { id := 12, raises := false }, condition := "always",
           thread := false }] ∧
    Notifier.datapointNotify
        [(4, [("door",
          [{ method := { id := 11, raises := true }, condition := "always",
             thread := false },
           { method := { id := 12, raises := false }, condition := "always",
             thread := false }])])]
        4 "door" (0 : Nat) 1 =
      Notifier.notifyAll "door" (0 : Nat) 1 [] ++
        ([NotifyEffect.invoked 11
            { name := "datapoint", dp := "door", oldValue := (0 : Nat),
              newValue := 1, condition := "always", thread := false },
          NotifyEffect.logError "Notifier._execute()"] ++
          Notifier.notifyAll "door" (0 : Nat) 1
            [{ method := { id := 12, raises := false }, condition := "always",
               thread := false }]) :=
  ⟨by decide,
    c4_handler_exception_isolated
      [(4, [("door",
        [{ method := { id := 11, raises := true }, condition := "always",
           thread := false },
         { method := { id := 12, raises := false }, condition := "always",
           thread := false }])])]
      4 "door" (0 : Nat) 1 []
      [{ method := { id := 12, raises := false }, condition := "always",
         thread := false }]
      { method := { id := 11, raises := true }, condition := "always",
        thread := false }
      (by decide) rfl rfl (Or.inr rfl)⟩

/-- C6: the code never runs a thread=true handler: the name thread is unbound
in notifier.py (the module is never imported), so the dispatch raises a
NameError that the enclosing try/except logs, and the handler is skipped;
evaluated here at a satisfied always-condition with distinct values. -/
theorem c6_thread_marking_breaks_invocation :
    Notifier.datapointNotify
        [(2, [("door",
          [{ method := { id := 5, raises := false }, condition := "always",
             thread := true }])])]
        2 "door" (0 : Nat) 1 =
      [NotifyEffect.logError "Notifier.datapointNotify()"] ∧
    Notifier.invokedOf
        (Notifier.datapointNotify
          [(2, [("door",
            [{ method := { id := 5, raises := false }, condition := "always",
               thread := true }])])]
          2 "door" (0 : Nat) 1) = [] := by
  decide

/-! ## Registration lemmas and claim C10 -/

/-- Effect of the nested-dict append on the inner lookup. -/
theorem aLookup_updateDp (m : List (String × List JobEntry)) (dp : String)
    (e : JobEntry) (dp' : String) :
    aLookup dp' (Notifier.updateDp dp e m) =
      if dp' = dp then some ((aLookup dp' m).getD [] ++ [e])
      else aLookup dp' m := by
  induction m with
  | nil =>
    by_cases h : dp' = dp
    · subst h
      simp [Notifier.updateDp, aLookup]
    · simp [Notifier.updateDp, aLookup, h, Ne.symm h]
  | cons kv rest ih =>
    obtain ⟨d, es⟩ := kv
    by_cases hd : d = dp
    · subst hd
      by_cases h : dp' = d
      · subst h
        simp [Notifier.updateDp, aLookup]
      · simp [Notifier.updateDp, aLookup, h, Ne.symm h]
    · by_cases h : dp' = d
      · subst h
        simp [Notifier.updateDp, aLookup, hd, Ne.symm hd]
      · simp [Notifier.updateDp, aLookup, hd, h, Ne.symm h, ih]

/-- Effect of addJob on the outer lookup: the inner dict under the inserted
instance key is extended (created empty when absent); other keys are kept. -/
theorem aLookup_addJob (tbl : JobTable) (o : Nat) (dp : String) (e : JobEntry)
    (o' : Nat) :
    aLookup o' (Notifier.addJob tbl o dp e) =
      if o' = o then some (Notifier.updateDp dp e ((aLookup o' tbl).getD []))
      else aLookup o' tbl := by
  induction tbl with
  | nil =>
    by_cases h : o' = o
    · subst h
      simp [Notifier.addJob, aLookup, Notifier.updateDp]
    · simp [Notifier.addJob, aLookup, h, Ne.symm h]
  | cons kv rest ih =>
    obtain ⟨ko, m⟩ := kv
    by_cases hko : ko = o
    · subst hko
      by_cases h : o' = ko
      · subst h
        simp [Notifier.addJob, aLookup]
      · simp [Notifier.addJob, aLookup, h, Ne.symm h]
    · by_cases h : o' = ko
      · subst h
        simp [Notifier.addJob, aLookup, hko, Ne.symm hko]
      · simp [Notifier.addJob, aLookup, hko, h, Ne.symm h, ih]

/-- Effect of addJob on jobsFor: the entry lands at the end of the list under
its own (instance, datapoint) key and every other key is untouched. -/
theorem jobsFor_addJob (tbl : JobTable) (o : Nat) (dp : String) (e : JobEntry)
    (o' : Nat) (dp' : String) :
    jobsFor (Notifier.addJob tbl o dp e) o' dp' =
      if o' = o ∧ dp' = dp then jobsFor tbl o' dp' ++ [e]
      else jobsFor tbl o' dp' := by
  unfold jobsFor
  rw [aLookup_addJob]
  by_cases ho : o' = o
  · rw [if_pos ho]
    show (aLookup dp' (Notifier.updateDp dp e ((aLookup o' tbl).getD []))).getD [] = _
    rw [aLookup_updateDp]
    by_cases hdp : dp' = dp
    · rw [if_pos hdp, if_pos ⟨ho, hdp⟩]
      cases aLookup o' tbl <;> simp [aLookup]
    · rw [if_neg hdp, if_neg (fun hh => hdp hh.2)]
      cases aLookup o' tbl <;> simp [aLookup]
  · rw [if_neg ho, if_neg (fun hh => ho hh.1)]

/-- Any entry found in the table after doRegisterJobs either was there before
or comes from a pending registration whose function name resolves on the
instance to the very function object that was decorated. -/
theorem mem_doRegisterJobs (obj : Obj) (pending : List PendingFunc)
    (tbl : JobTable) (entry : JobEntry) (oid : Nat) (dp : String)
    (h : entry ∈ jobsFor (Notifier.doRegisterJobs obj pending tbl) oid dp) :
    entry ∈ jobsFor tbl oid dp ∨
      (oid = obj.id ∧ ∃ p ∈ pending, p.type_ = "datapoint" ∧ dp = p.dp ∧
        aLookup p.funcName obj.attrs = some p.func ∧
        entry = { method := p.func, condition := p.condition, thread := p.thread }) := by
  induction pending generalizing tbl with
  | nil => exact Or.inl h
  | cons p rest ih =>
    rw [Notifier.doRegisterJobs] at h
    cases haL : aLookup p.funcName obj.attrs with
    | none =>
      simp only [haL] at h
      rcases ih _ h with h' | ⟨hoid, q, hq, hrest⟩
      · exact Or.inl h'
      · exact Or.inr ⟨hoid, q, List.mem_cons_of_mem p hq, hrest⟩
    | some m =>
      simp only [haL] at h
      by_cases hm : m = p.func
      · rw [if_pos hm] at h
        by_cases hty : p.type_ = "datapoint"
        · rw [if_pos hty] at h
          rcases ih _ h with h' | ⟨hoid, q, hq, hrest⟩
          · rw [jobsFor_addJob] at h'
            by_cases hkey : oid = obj.id ∧ dp = p.dp
            · rw [if_pos hkey] at h'
              rcases List.mem_append.1 h' with h'' | h''
              · exact Or.inl h''
              · refine Or.inr ⟨hkey.1, p, List.mem_cons_self p rest, hty, hkey.2,
                  ?_, ?_⟩
                · rw [haL, hm]
                · rw [List.mem_singleton.1 h'', hm]
            · rw [if_neg hkey] at h'
              exact Or.inl h'
          · exact Or.inr ⟨hoid, q, List.mem_cons_of_mem p hq, hrest⟩
        · rw [if_neg hty] at h
          rcases ih _ h with h' | ⟨hoid, q, hq, hrest⟩
          · exact Or.inl h'
          · exact Or.inr ⟨hoid, q, List.mem_cons_of_mem p hq, hrest⟩
      · rw [if_neg hm] at h
        rcases ih _ h with h' | ⟨hoid, q, hq, hrest⟩
        · exact Or.inl h'
        · exact Or.inr ⟨hoid, q, List.mem_cons_of_mem p hq, hrest⟩

/-- C10: an entry bound by doRegisterJobs starting from an empty table exists
only for the instance itself and only when the instance has an attribute
named after a pending decorated function whose underlying function object is
identical to it; the bound entry carries exactly that function with the
registered condition and thread flag, so a method of another class that
merely shares the name is never registered. -/
theorem c10_registration_requires_identity (obj : Obj)
    (pending : List PendingFunc) (entry : JobEntry) (oid : Nat) (dp : String)
    (h : entry ∈ jobsFor (Notifier.doRegisterJobs obj pending []) oid dp) :
    oid = obj.id ∧ ∃ p ∈ pending, p.type_ = "datapoint" ∧ dp = p.dp ∧
      aLookup p.funcName obj.attrs = some p.func ∧
      entry = { method := p.func, condition := p.condition, thread := p.thread } := by
  rcases mem_doRegisterJobs obj pending [] entry oid dp h with h' | h'
  · simp [jobsFor, aLookup] at h'
  · exact h'

/-- C10 witness: a decorated function whose name resolves on the instance to
the same function object is registered, and the theorem applied to the
resulting entry recovers its pending registration. -/
theorem c10_registration_requires_identity_witness :
    ({ method := { id := 21, raises := false }, condition := "change",
       thread := false } : JobEntry) ∈
      jobsFor
        (Notifier.doRegisterJobs
          { id := 6, attrs := [("onTemp", { id := 21, raises := false })] }
          [{ type_ := "datapoint", funcName := "onTemp",
             func := { id := 21, raises := false }, dp := "temp",
             condition := "change", thread := false }]
          [])
        6 "temp" ∧
    (6 = ({ id := 6, attrs := [("onTemp", { id := 21, raises := false })] } : Obj).id ∧
      ∃ p ∈ [({ type_ := "datapoint", funcName := "onTemp",
                func := { id := 21, raises := false }, dp := "temp",
                condition := "change", thread := false } : PendingFunc)],
        p.type_ = "datapoint" ∧ "temp" = p.dp ∧
        aLookup p.funcName
            ({ id := 6, attrs := [("onTemp", { id := 21, raises := false })] } : Obj).attrs =
          some p.func ∧
        ({ method := { id := 21, raises := false }, condition := "change",
           thread := false } : JobEntry) =
          { method := p.func, condition := p.condition, thread := p.thread }) :=
  ⟨by decide,
    c10_registration_requires_identity
      { id := 6, attrs := [("onTemp", { id := 21, raises := false })] }
      [{ type_ := "datapoint", funcName := "onTemp",
         func := { id := 21, raises := false }, dp := "temp",
         condition := "change", thread := false }]
      { method := { id := 21, raises := false }, condition := "change",
        thread := false }
      6 "temp" (by decide)⟩

/-! ## Multicast socket claim theorems -/

/-- C7 counterexample: with the default constructor parameters the transmit
socket sets IP_MULTICAST_LOOP to 1, that is multicast loopback enabled, not
disabled as claimed. -/
theorem c7_default_loopback_enabled_counterexample :
    aLookup SockOpt.IP_MULTICAST_LOOP (MulticastSocketTransmit.initOptsDefault true) =
        some 1 ∧
      aLookup SockOpt.IP_MULTICAST_LOOP (MulticastSocketTransmit.initOptsDefault true) ≠
        some 0 := by
  decide

/-- C7 (amended): with the default parameters the transmit socket options set
at construction give TTL 32 and multicast loopback enabled, the loop
parameter defaulting to 1, whether or not SO_REUSEPORT is supported. -/
theorem c7_default_ttl_and_loop (reuseportOk : Bool) :
    aLookup SockOpt.IP_MULTICAST_TTL
        (MulticastSocketTransmit.initOptsDefault reuseportOk) = some 32 ∧
      aLookup SockOpt.IP_MULTICAST_LOOP
        (MulticastSocketTransmit.initOptsDefault reuseportOk) = some 1 := by
  cases reuseportOk <;> decide

/-- C8 counterexample: a send of a 1-byte datagram in which the underlying
sendto delivers 0 bytes is a partial send, yet transmit returns normally
instead of raising. -/
theorem c8_zero_byte_send_returns_normally :
    MulticastSocketTransmit.transmit 1 0 = Except.ok () := by
  rfl

/-- C8 (amended): transmit raises an IOError exactly when the underlying send
delivers at least one byte but fewer than the datagram length; in particular
it raises the builtin IOError, never an error tagged TransceiverError. -/
theorem c8_short_send_raises_IOError (dataLen sentLen : Nat) :
    (MulticastSocketTransmit.transmit dataLen sentLen = Except.ok () ↔
        ¬(0 < sentLen ∧ sentLen < dataLen)) ∧
      ((0 < sentLen ∧ sentLen < dataLen) →
        MulticastSocketTransmit.transmit dataLen sentLen =
          Except.error (PyError.IOError "partial transmit")) ∧
      ∀ msg, MulticastSocketTransmit.transmit dataLen sentLen ≠
        Except.error (PyError.TransceiverError msg) := by
  unfold MulticastSocketTransmit.transmit
  by_cases h : 0 < sentLen ∧ sentLen < dataLen
  · rw [if_pos h]
    exact ⟨by simp [h], fun _ => rfl, fun msg hmsg => by cases hmsg⟩
  · rw [if_neg h]
    exact ⟨by simp [h], fun hh => absurd hh h, fun msg hmsg => by cases hmsg⟩

/-- C8 witness: a 3-byte datagram of which only 1 byte is delivered raises
the IOError, and never an error tagged TransceiverError. -/
theorem c8_short_send_raises_IOError_witness :
    MulticastSocketTransmit.transmit 3 1 =
        Except.error (PyError.IOError "partial transmit") ∧
      MulticastSocketTransmit.transmit 3 1 ≠
        Except.error (PyError.TransceiverError "partial transmit") :=
  ⟨(c8_short_send_raises_IOError 3 1).2.1 (by decide),
    (c8_short_send_raises_IOError 3 1).2.2 "partial transmit"⟩

end PyKNyX
